import Mathlib

set_option maxRecDepth 8000

/-!
Verification development for the natural-language query-resolution engine of the
FastAPI user-search service (modules `ai/detectors.py`, `ai/query_parser.py`,
`ai/cache.py`, `ai/models.py`).

The Python code is shallowly embedded: each Python function becomes an
executable Lean function of the same name over `String` / `List String`.
Python string operations (`lower`, `strip`, `split`, `replace`, `in`,
`capitalize`, `title`, `isalpha`, …) are modelled by the `py*` helpers below
with Python's semantics restricted to ASCII text (the code's own keyword
tables and all queries of interest are ASCII).  Python `frozenset` literals
become `List String` (only membership is used, except where noted);
Python dicts used as ordered replacement tables become `List (String × String)`
in their insertion order, which Python preserves.
-/

/-! ### Python string primitives -/

/-- The apostrophe character (written by code point to keep source plain). -/
def apostrophe : Char := Char.ofNat 39

/-- Python whitespace test for `str.split()` / `str.strip()` (ASCII subset:
space, tab, newline, carriage return, vertical tab, form feed). -/
def pyIsSpace (c : Char) : Bool :=
  c == ' ' || c == '\t' || c == '\n' || c == '\r' ||
  c == Char.ofNat 11 || c == Char.ofNat 12

/-- Python's case and letter semantics are Unicode-wide; this embedding
models them exactly on the ASCII and Latin-1 (U+00A0 to U+00FF) ranges, which
cover the code's keyword tables together with the case-mapping
irregularities reachable by the parser — notably U+00DF eszett, a one-letter
lower-case character whose `upper()` image is the two-character "SS".  Code
points above U+00FF are outside the model's scope and are treated as
caseless non-letters.

`char.lower()`: ASCII upper-case letters and the Latin-1 upper-case letters
(U+00C0 to U+00D6 and U+00D8 to U+00DE, the multiplication sign excluded)
move down by 0x20; everything else is unchanged. -/
def pyLowerChar (c : Char) : Char :=
  if 65 ≤ c.toNat ∧ c.toNat ≤ 90 then Char.toLower c
  else if (0xC0 ≤ c.toNat ∧ c.toNat ≤ 0xD6) ∨ (0xD8 ≤ c.toNat ∧ c.toNat ≤ 0xDE) then
    Char.ofNat (c.toNat + 0x20)
  else c

/-- `str.lower()` on ASCII/Latin-1 text. -/
def pyLower (s : String) : String := String.mk (s.data.map pyLowerChar)

/-- `char.upper()` as a character sequence: ASCII and most Latin-1 lower-case
letters map to their single upper-case form, while U+00DF eszett expands to
the two characters "SS", the U+00B5 micro sign maps to Greek capital mu
(U+039C) and U+00FF maps to U+0178. -/
def pyUpperChar (c : Char) : List Char :=
  if 97 ≤ c.toNat ∧ c.toNat ≤ 122 then [Char.toUpper c]
  else if c.toNat = 0xDF then ['S', 'S']
  else if c.toNat = 0xB5 then [Char.ofNat 0x39C]
  else if c.toNat = 0xFF then [Char.ofNat 0x178]
  else if (0xE0 ≤ c.toNat ∧ c.toNat ≤ 0xF6) ∨ (0xF8 ≤ c.toNat ∧ c.toNat ≤ 0xFE) then
    [Char.ofNat (c.toNat - 0x20)]
  else [c]

/-- `str.upper()` on ASCII/Latin-1 text; upper-casing can lengthen a string
(eszett becomes "SS"). -/
def pyUpper (s : String) : String := String.mk ((s.data.map pyUpperChar).join)

/-- U+00DF, the lower-case letter whose upper-case image has two characters. -/
def eszett : Char := Char.ofNat 0xDF

/-- Strip characters satisfying `pred` from both ends (Python `str.strip`). -/
def pyStripPred (pred : Char → Bool) (s : String) : String :=
  String.mk (((s.data.dropWhile pred).reverse.dropWhile pred).reverse)

/-- Python `str.strip()` (no argument: strips whitespace). -/
def pyStrip (s : String) : String := pyStripPred pyIsSpace s

/-- Python `str.strip(chars)` for an explicit character set. -/
def pyStripSet (chars : List Char) (s : String) : String :=
  pyStripPred (fun c => chars.contains c) s

/-- Helper for `pySplitWs`: accumulate the current word (reversed) while
scanning; words are maximal runs of non-whitespace. -/
def pyWordsAux : List Char → List Char → List String
  | [], cur => if cur.isEmpty then [] else [String.mk cur.reverse]
  | c :: rest, cur =>
    if pyIsSpace c then
      if cur.isEmpty then pyWordsAux rest []
      else String.mk cur.reverse :: pyWordsAux rest []
    else pyWordsAux rest (c :: cur)

/-- Python `str.split()` (split on whitespace runs, no empty words). -/
def pySplitWs (s : String) : List String := pyWordsAux s.data []

/-- `List Char` infix test: is `pat` a contiguous sublist of `s`?
(Python `pat in s`; the empty pattern is contained in everything.) -/
def listHasSublist (pat : List Char) : List Char → Bool
  | [] => pat.isEmpty
  | c :: rest => pat.isPrefixOf (c :: rest) || listHasSublist pat rest

/-- Python substring containment `sub in s`. -/
def pyContains (s sub : String) : Bool := listHasSublist sub.data s.data

/-- Python `str.startswith`. -/
def pyStartsWith (s pre : String) : Bool := pre.data.isPrefixOf s.data

/-- Core of Python `str.replace`: replace non-overlapping occurrences of
`old` left-to-right by `new`; replacement text is not rescanned.  The `fuel`
argument makes the recursion structural (every step consumes at least one
character of the remaining input, so `fuel = input length` never runs out).
(Python additionally inserts `new` at every position when `old` is empty; the
code never calls `replace` with an empty pattern, and this model leaves the
string unchanged in that degenerate case.) -/
def pyReplaceAux (old new : List Char) : Nat → List Char → List Char
  | _, [] => []
  | 0, l => l
  | fuel + 1, c :: rest =>
    if old ≠ [] ∧ old.isPrefixOf (c :: rest) then
      new ++ pyReplaceAux old new fuel ((c :: rest).drop old.length)
    else
      c :: pyReplaceAux old new fuel rest

/-- Python `s.replace(old, new)`. -/
def pyReplace (s old new : String) : String :=
  String.mk (pyReplaceAux old.data new.data s.data.length s.data)

/-- Apply an ordered list of `(old, new)` replacements in sequence
(a Python `for old, new in table.items(): q = q.replace(old, new)` loop). -/
def pyReplaceAll (s : String) (table : List (String × String)) : String :=
  table.foldl (fun q p => pyReplace q p.1 p.2) s

/-- Python `str[n:]` (drop the first `n` characters). -/
def pyDrop (s : String) (n : Nat) : String := String.mk (s.data.drop n)

/-- `char.isalpha()` on the modeled ASCII/Latin-1 subset: the ASCII letters
plus every Latin-1 letter (the feminine/masculine ordinal indicators U+00AA
and U+00BA, the micro sign U+00B5, and the accented ranges U+00C0 to U+00D6,
U+00D8 to U+00F6 and U+00F8 to U+00FF — the multiplication and division
signs are not letters). -/
def pyIsAlphaChar (c : Char) : Bool :=
  c.isAlpha || decide (c.toNat = 0xAA) || decide (c.toNat = 0xB5) ||
  decide (c.toNat = 0xBA) ||
  decide (0xC0 ≤ c.toNat ∧ c.toNat ≤ 0xD6) || decide (0xD8 ≤ c.toNat ∧ c.toNat ≤ 0xF6) ||
  decide (0xF8 ≤ c.toNat ∧ c.toNat ≤ 0xFF)

/-- Python `str.isalpha()`: nonempty and all characters alphabetic (ASCII). -/
def pyStrIsAlpha (s : String) : Bool := !s.isEmpty && s.data.all pyIsAlphaChar

/-- Python `word[0].isalpha()` (false on the empty string, which in Python
would raise; the code only indexes words produced by `split`, which are
nonempty). -/
def pyFirstIsAlpha (s : String) : Bool :=
  match s.data with
  | [] => false
  | c :: _ => pyIsAlphaChar c

/-- Title-casing a single character: as `pyUpperChar`, except that eszett
title-cases to "Ss" rather than "SS". -/
def pyTitleChar (c : Char) : List Char :=
  if c.toNat = 0xDF then ['S', 's'] else pyUpperChar c

/-- Python `str.capitalize()`: first character title-cased, the rest
lower-cased. -/
def pyCapitalize (s : String) : String :=
  match s.data with
  | [] => ""
  | c :: rest => String.mk (pyTitleChar c ++ rest.map pyLowerChar)

/-- Helper for `pyTitle`: `prevCased` says whether the previous character was
cased; a character after a cased one is lower-cased, any other is
title-cased (on the modeled ASCII/Latin-1 subset the cased characters are
exactly the letters, so `pyIsAlphaChar` is the tracking test; lower/title
leave non-letters unchanged). -/
def pyTitleAux : List Char → Bool → List Char
  | [], _ => []
  | c :: rest, prevCased =>
    (if prevCased then [pyLowerChar c] else pyTitleChar c) ++
      pyTitleAux rest (pyIsAlphaChar c)

/-- Python `str.title()`: the first letter of every maximal letter run is
title-cased, the rest lower-cased. -/
def pyTitle (s : String) : String := String.mk (pyTitleAux s.data false)

/-- Python `str.split(sep)` on a single-character separator, first segment
(the code only uses `q.split(chr)[0]`). -/
def pyTakeUntilChar (s : String) (sep : Char) : String :=
  String.mk (s.data.takeWhile (fun c => c != sep))

example : pyLower "AbC dEf" = "abc def" := by decide
example : pyStrip "  hi there  " = "hi there" := by decide
example : pySplitWs "  show  me  users " = ["show", "me", "users"] := by decide
example : pyContains "no profile pic" "profile" = true := by decide
example : pyContains "abc" "abd" = false := by decide
example : pyReplace "find all the users" "the" "X" = "find all X users" := by decide
example : pyCapitalize "aDAM" = "Adam" := by decide
example : pyTitle "except zed" = "Except Zed" := by decide
example : pyTitle (String.mk ['o', apostrophe, 'b', 'r', 'i', 'e', 'n']) =
    String.mk ['O', apostrophe, 'B', 'r', 'i', 'e', 'n'] := by decide
example : pyUpper (String.mk [eszett]) = "SS" := by decide
example : pyLower (String.mk [eszett]) = String.mk [eszett] := by decide
example : pyIsAlphaChar eszett = true := by decide
example : pyCapitalize (String.mk [eszett, 'a']) = "Ssa" := by decide

/-! ### `ai/detectors.py` — constants -/

def SORT_SHORTEST : String := "shortest"
def SORT_LONGEST : String := "longest"
def SORT_NEWEST : String := "newest"
def PATTERN_STARTS_WITH : String := "starts with"

def _LONGEST_WORDS : List String := [SORT_LONGEST, "long", "biggest", "big", "most characters"]
def _SHORTEST_WORDS : List String := [SORT_SHORTEST, "short", "smallest", "small", "fewest", "least"]
def _NEWEST_WORDS : List String := [SORT_NEWEST, "most recent", "recently created", "latest", "recent"]
def _OLDEST_WORDS : List String := ["oldest", "first created", "earliest"]
def _ALPHA_ASC_WORDS : List String := ["alphabetical", "a-z", "a to z"]
def _ALPHA_DESC_WORDS : List String := ["reverse alphabetical", "z-a", "z to a"]

def _FEMALE_WORDS : List String := ["female", "woman", "women", "lady", "ladies"]
def _MALE_WORDS : List String := ["male", "guy", "guys", "man", "men"]
def _FEMALE_TYPOS : List String := ["fmale", "femal", "femails", "femail"]
def _NAME_PREFIXES : List String := ["named", "called", "name"]

def _STARTS_WITH_PATTERNS : List String :=
  [PATTERN_STARTS_WITH, "starting with", "begins with", "beginning with",
   "begin with", "start with", "start at", "starting letter"]

def _FILTER_WORDS : List String :=
  ["female", "male", "other", "newest", "oldest", "latest", "recent",
   SORT_LONGEST, SORT_SHORTEST, "with", "without", "no", "user", "users"]

def _COMMAND_WORDS : List String :=
  ["find", "show", "list", "get", "search", "display", "give", "fetch",
   "all", "the", "users", "user", "people", "person", "names", "name"]

def _ARTICLES : List String := ["a", "an", "the", "that", "is"]

def _SORTING_WORDS : List String :=
  ["oldest", SORT_NEWEST, SORT_LONGEST, SORT_SHORTEST, "with", "without"]

/-! ### `ai/detectors.py` — unsupported-pattern warnings -/

/-- `detect_unsupported_patterns(query_lower)`. -/
def detect_unsupported_patterns (query_lower : String) : List String :=
  let words := pySplitWs query_lower
  let has_negation := words.contains "except" || words.contains "exclude"
  let has_not_without_profile := words.contains "not" && !pyContains query_lower "profile"
  let w1 : List String :=
    if has_negation || has_not_without_profile then
      ["Negation/exclusion queries are not supported - showing matching results instead"]
    else []
  let w2 : List String :=
    if words.contains "or" &&
        (words.contains "male" || words.contains "female" || words.contains "other") then
      ["OR logic between genders is not supported - using first gender found"]
    else []
  let w3 : List String :=
    if pyContains query_lower "ends with" || pyContains query_lower "end with" then
      ["Ends-with filtering is not supported - use \x27contains\x27 or \x27" ++
        PATTERN_STARTS_WITH ++ "\x27 instead"]
    else []
  let w4 : List String :=
    if words.contains "exactly" &&
        (words.contains "letter" || words.contains "char" || words.contains "character") then
      ["Exact length filtering is not supported - only odd/even length is available"]
    else []
  w1 ++ w2 ++ w3 ++ w4

/-! ### `ai/detectors.py` — sorting detection -/

/-- `_detect_length_sorting(query_lower, words, has_username, has_name)`. -/
def _detect_length_sorting (query_lower : String) (words : List String)
    (has_username has_name : Bool) : Option (String × String) :=
  let has_longest := _LONGEST_WORDS.any (fun w => pyContains query_lower w)
  let has_shortest := _SHORTEST_WORDS.any (fun w => pyContains query_lower w)
  if has_longest && (has_username || has_name || words.contains "first") then
    some (if has_username then "username_length" else "name_length", "desc")
  else if has_shortest && (has_username || has_name || words.contains "first") then
    some (if has_username then "username_length" else "name_length", "asc")
  else none

/-- `_detect_date_sorting(query_lower)`. -/
def _detect_date_sorting (query_lower : String) : Option (String × String) :=
  if _NEWEST_WORDS.any (fun w => pyContains query_lower w) || pyContains query_lower "signups" then
    some ("created_at", "desc")
  else if _OLDEST_WORDS.any (fun w => pyContains query_lower w) then
    some ("created_at", "asc")
  else none

/-- `_detect_alpha_sorting(query_lower, has_username, has_name)`. -/
def _detect_alpha_sorting (query_lower : String) (has_username has_name : Bool) :
    Option (String × String) :=
  if _ALPHA_DESC_WORDS.any (fun w => pyContains query_lower w) then
    some (if has_username then "username" else "name", "desc")
  else if _ALPHA_ASC_WORDS.any (fun w => pyContains query_lower w) then
    if has_username then some ("username", "asc") else some ("name", "asc")
  else none

def _EXPLICIT_SORT_FIELD_MAP : List (String × (String × String)) :=
  [("username", ("username", "asc")), ("usernames", ("username", "asc")),
   ("name", ("name", "asc")), ("names", ("name", "asc")),
   ("date", ("created_at", "desc")), ("created", ("created_at", "desc")),
   ("time", ("created_at", "desc"))]

/-- `_detect_explicit_sort(words)` — the "sort by X" / "order by X" pattern. -/
def _detect_explicit_sort (words : List String) : Option (String × String) :=
  let has_sort_word := words.contains "sort" || words.contains "sorted" ||
    words.contains "order" || words.contains "ordered"
  if !(has_sort_word && words.contains "by") then none
  else
    let by_idx := words.findIdx (fun w => w == "by")
    match words[by_idx + 1]? with
    | none => none
    | some sort_field => _EXPLICIT_SORT_FIELD_MAP.lookup sort_field

/-- `detect_sorting(query_lower)`: the four sort detectors tried in fixed
priority order; `(none, "desc")` when nothing matches. -/
def detect_sorting (query_lower : String) : Option String × String :=
  let words := pySplitWs query_lower
  let has_username := pyContains query_lower "username" || pyContains query_lower "usernames"
  let has_name := pyContains query_lower "name" || pyContains query_lower "names"
  match _detect_length_sorting query_lower words has_username has_name with
  | some r => (some r.1, r.2)
  | none =>
  match _detect_date_sorting query_lower with
  | some r => (some r.1, r.2)
  | none =>
  match _detect_alpha_sorting query_lower has_username has_name with
  | some r => (some r.1, r.2)
  | none =>
  match _detect_explicit_sort words with
  | some r => (some r.1, r.2)
  | none => (none, "desc")

example : detect_sorting "longest username" = (some "username_length", "desc") := by decide
example : detect_sorting "shortest name" = (some "name_length", "asc") := by decide
example : detect_sorting "sorted by date" = (some "created_at", "desc") := by decide

/-! ### `ai/detectors.py` — profile picture and parity detection -/

def _IMAGE_WORDS : List String := ["pic", "picture", "photo", "image", "avatar"]

def _WITHOUT_INDICATORS : List String :=
  ["without pic", "without pics", "without photo", "without photos",
   "without profile", "without avatar", "without avatars",
   "without picture", "without pictures",
   "no pic", "no pics", "no photo", "no photos",
   "no profile", "no avatar", "no avatars",
   "no picture", "no pictures",
   "missing pic", "missing pics", "missing photo", "missing photos",
   "missing profile", "missing avatar", "missing picture",
   "don\x27t have pic", "don\x27t have picture", "don\x27t have photo",
   "doesn\x27t have pic", "doesn\x27t have picture", "doesn\x27t have photo",
   "w/o pic", "w/o photo", "w/o profile", "w/o avatar"]

def _HAS_INDICATORS : List String :=
  ["with pic", "with photo", "with profile", "with avatar",
   "with picture", "with pics", "with photos", "with avatars",
   "has pic", "has photo", "has avatar", "has picture",
   "have pic", "have photo", "have avatar", "have picture",
   "got pic", "got photo", "got avatar", "got picture",
   "profile pic", "profile picture", "profile photo"]

/-- `detect_profile_pic_filter(query_lower)`: "without" indicators are checked
before "with" indicators. -/
def detect_profile_pic_filter (query_lower : String) : Option Bool :=
  let has_image_word := _IMAGE_WORDS.any (fun w => pyContains query_lower w)
  if !has_image_word && !pyContains query_lower "profile" then none
  else if _WITHOUT_INDICATORS.any (fun w => pyContains query_lower w) then some false
  else if _HAS_INDICATORS.any (fun w => pyContains query_lower w) then some true
  else none

/-- `detect_name_length_parity(query_lower)`. -/
def detect_name_length_parity (query_lower : String) : Option String :=
  let length_words : List String := ["letter", "character", "length"]
  let has_length_word := length_words.any (fun w => pyContains query_lower w)
  if pyContains query_lower "odd" && (has_length_word || pyContains query_lower "name") then
    some "odd"
  else if pyContains query_lower "even" && (has_length_word || pyContains query_lower "name") then
    some "even"
  else none

example : detect_profile_pic_filter "users without profile picture" = some false := by decide
example : detect_profile_pic_filter "users with profile picture" = some true := by decide

/-! ### `ai/detectors.py` — gender detection -/

/-- `_is_name_not_gender(gender_word, words)`: a gender word preceded by
"named"/"called"/"name" is a name, not a gender. -/
def _is_name_not_gender (gender_word : String) (words : List String) : Bool :=
  if words.contains gender_word then
    let idx := words.findIdx (fun w => w == gender_word)
    decide (0 < idx) &&
      (match words[idx - 1]? with
       | some w => _NAME_PREFIXES.contains w
       | none => false)
  else false

/-- `_detect_other_gender(query_lower, words)`. -/
def _detect_other_gender (query_lower : String) (words : List String) :
    Option (String × Option String) :=
  if pyContains query_lower "other gender" || pyContains query_lower "other-gender" then
    some ("Other", none)
  else if pyContains query_lower "non-binary" || pyContains query_lower "non binary" ||
      pyContains query_lower "nonbinary" then
    some ("Other", none)
  else if words.contains "nb" then
    some ("Other", some "Interpreted as \x27non-binary\x27")
  else none

/-- `_detect_female_gender(query_lower, words)`. -/
def _detect_female_gender (query_lower : String) (words : List String) :
    Option (String × Option String) :=
  if _is_name_not_gender "female" words then none
  else if _FEMALE_WORDS.any (fun w => words.contains w) || pyContains query_lower "female" then
    some ("Female", none)
  else if _FEMALE_TYPOS.any (fun t => pyContains query_lower t) && !words.contains "male" then
    some ("Female", some "Interpreted as \x27female\x27 (possible typo corrected)")
  else none

/-- `_detect_male_gender(words)`. -/
def _detect_male_gender (words : List String) : Option (String × Option String) :=
  if _is_name_not_gender "male" words then none
  else if _MALE_WORDS.any (fun w => words.contains w) then some ("Male", none)
  else none

/-- `detect_gender(query_lower)`: Other, then Female, then Male, then the
"other" fallback; result is `(gender?, warning?)`. -/
def detect_gender (query_lower : String) : Option String × Option String :=
  let words := pySplitWs query_lower
  match _detect_other_gender query_lower words with
  | some r => (some r.1, r.2)
  | none =>
  match _detect_female_gender query_lower words with
  | some r => (some r.1, r.2)
  | none =>
  match _detect_male_gender words with
  | some r => (some r.1, r.2)
  | none =>
    if !_is_name_not_gender "other" words && words.contains "other" &&
        (pyContains query_lower "gender" || pyContains query_lower "user") then
      (some "Other", none)
    else (none, none)

example : detect_gender "female users" = (some "Female", none) := by decide
example : detect_gender "fmale users" =
    (some "Female", some "Interpreted as \x27female\x27 (possible typo corrected)") := by decide

/-! ### `ai/detectors.py` — name search helpers -/

/-- `_extract_word_after(query_lower, keywords, excluded_words)`: first word
following a keyword that is not excluded and starts with a letter; the scan
continues past non-qualifying candidates. -/
def _extract_word_after_aux (keywords excluded : List String) : List String → Option String
  | [] => none
  | w :: rest =>
    if keywords.contains w then
      match rest.head? with
      | some next_word =>
        if !excluded.contains next_word && next_word ≠ "" && pyFirstIsAlpha next_word then
          some next_word
        else _extract_word_after_aux keywords excluded rest
      | none => _extract_word_after_aux keywords excluded rest
    else _extract_word_after_aux keywords excluded rest

def _extract_word_after (query_lower : String) (keywords excluded : List String) :
    Option String :=
  _extract_word_after_aux keywords excluded (pySplitWs query_lower)

/-- `_capitalize_name(name)`: capitalize apostrophe-separated parts. -/
def _capitalize_name (name : String) : String :=
  let parts := (name.data.splitOn apostrophe).map (fun p => (pyCapitalize (String.mk p)).data)
  String.mk (List.intercalate [apostrophe] parts)

/-- Single-character alphabetic word test (`len(w) == 1 and w.isalpha()`). -/
def isSingleLetter (w : String) : Bool :=
  decide (w.length = 1) && pyStrIsAlpha w

/-- The candidate word inspected by `_find_letter_after_with` right after a
"with": the next word, or the one after it when the next word is an article
(or "letter") and exists. -/
def _with_next_word (n1 : String) (rest2 : List String) : String :=
  if ["a", "an", "the", "letter"].contains n1 && decide (rest2 ≠ []) then rest2.headD n1
  else n1

/-- `_find_letter_after_with(words)`: a single letter following "with"
(optionally skipping one article / the word "letter").  A final "with" has no
next word, so the loop just ends (`[_] => none`). -/
def _find_letter_after_with : List String → Option String
  | [] => none
  | [_] => none
  | w :: n1 :: rest2 =>
    if w == "with" then
      if isSingleLetter (_with_next_word n1 rest2) then
        some (pyUpper (_with_next_word n1 rest2))
      else _find_letter_after_with (n1 :: rest2)
    else _find_letter_after_with (n1 :: rest2)

/-- `_find_letter_after_pattern(words, pattern_words)`: a single letter at
offset `len(pattern_words)` from a word equal to the first pattern word. -/
def _find_letter_after_pattern (pattern_words : List String) : List String → Option String
  | [] => none
  | w :: rest =>
    if some w == pattern_words.head? then
      match (w :: rest)[pattern_words.length]? with
      | some next_word =>
        if isSingleLetter next_word then some (pyUpper next_word)
        else _find_letter_after_pattern pattern_words rest
      | none => _find_letter_after_pattern pattern_words rest
    else _find_letter_after_pattern pattern_words rest

example : _find_letter_after_with ["users", "starting", "with", "j"] = some "J" := by decide
example : _find_letter_after_with ["with", "the", "letter"] = none := by decide
example : _find_letter_after_pattern ["starting", "with"] ["users", "starting", "with", "j"] =
    some "J" := by decide

/-! ### `ai/detectors.py` — the ten name-search pattern matchers -/

/-- Pattern 1, `_detect_show_x_names(words)`: single letter right before
"names". -/
def _detect_show_x_names (words : List String) : Option (String × Bool) :=
  if !words.contains "names" || decide (words.length < 2) then none
  else
    let names_idx := words.findIdx (fun w => w == "names")
    if 1 ≤ names_idx then
      match words[names_idx - 1]? with
      | some prev_word =>
        if isSingleLetter prev_word then some (pyUpper prev_word, true) else none
      | none => none
    else none

/-- Pattern 2, `_detect_starts_with_pattern(query_lower, words)`: "starts
with X" variants.  The Python loop iterates over a `frozenset`, whose order is
arbitrary; it is modelled here in the literal's order (the result does not
depend on the order: every branch produces a single upper-case letter, and a
hit requires the pattern phrase to occur in the query). -/
def _detect_starts_with_pattern_aux (query_lower : String) (words : List String) :
    List String → Option (String × Bool)
  | [] => none
  | pat :: pats =>
    if !pyContains query_lower pat then _detect_starts_with_pattern_aux query_lower words pats
    else
      match _find_letter_after_with words with
      | some letter => some (letter, true)
      | none =>
        match _find_letter_after_pattern (pySplitWs pat) words with
        | some letter => some (letter, true)
        | none => _detect_starts_with_pattern_aux query_lower words pats

def _detect_starts_with_pattern (query_lower : String) (words : List String) :
    Option (String × Bool) :=
  _detect_starts_with_pattern_aux query_lower words _STARTS_WITH_PATTERNS

/-- Pattern 3, `_detect_letter_in_name(words)`: "letter X ... name(s)". -/
def _detect_letter_in_name (words : List String) : Option (String × Bool) :=
  if !words.contains "letter" then none
  else
    let letter_idx := words.findIdx (fun w => w == "letter")
    match words[letter_idx + 1]? with
    | none => none
    | some next_word =>
      if isSingleLetter next_word then
        if (words.drop letter_idx).contains "name" || (words.drop letter_idx).contains "names" then
          some (pyUpper next_word, false)
        else none
      else none

/-- Pattern 4, `_detect_containing_pattern(words)`: "containing X". -/
def _detect_containing_pattern (words : List String) : Option (String × Bool) :=
  if !words.contains "containing" then none
  else
    let idx := words.findIdx (fun w => w == "containing")
    match words[idx + 1]? with
    | none => none
    | some next_word =>
      if isSingleLetter next_word then some (pyUpper next_word, false)
      else if !_ARTICLES.contains next_word then some (_capitalize_name next_word, false)
      else none

/-- Pattern 5, `_detect_name_like_pattern(words)`: "name ... like X". -/
def _detect_name_like_pattern (words : List String) : Option (String × Bool) :=
  if !words.contains "like" then none
  else
    let idx := words.findIdx (fun w => w == "like")
    if 0 < idx && (words.take idx).contains "name" then
      match words[idx + 1]? with
      | some next_word =>
        if !_ARTICLES.contains next_word then some (_capitalize_name next_word, false)
        else none
      | none => none
    else none

/-- Pattern 6, `_detect_named_called_pattern(query_lower)`: "named X" /
"called X". -/
def _detect_named_called_pattern (query_lower : String) : Option (String × Bool) :=
  let excluded : List String :=
    ["that", "is", "of", "which", "who", "a", "an", "the",
     "users", "user", "people", "all", "me"]
  match _extract_word_after query_lower ["named", "called"] excluded with
  | some name =>
    if !_SORTING_WORDS.contains (pyLower name) then some (_capitalize_name name, false)
    else none
  | none => none

/-- Pattern 7, `_detect_show_name_filter(words)`: "show/find X <filter>". -/
def _detect_show_name_filter (words : List String) : Option (String × Bool) :=
  match words with
  | w0 :: potential_name :: w2 :: _ =>
    if w0 ≠ "show" && w0 ≠ "find" then none
    else if !_FILTER_WORDS.contains potential_name && pyFirstIsAlpha potential_name &&
        _FILTER_WORDS.contains w2 then
      some (_capitalize_name potential_name, false)
    else none
  | _ => none

/-- Pattern 8, `_detect_name_users_pattern(words)`: "X ... users". -/
def _detect_name_users_pattern (words : List String) : Option (String × Bool) :=
  if decide (words.length < 2) ||
      (words.getLast? ≠ some "users" && words.getLast? ≠ some "user") then none
  else
    match words.head? with
    | none => none
    | some potential_name =>
      let cmd_words : List String :=
        ["find", "show", "list", "get", "search", "display", "give", "fetch",
         "all", "the", "female", "male", "other", SORT_NEWEST, "oldest",
         "fmale", "femal", "femails", "femail"]
      let excluded : List String :=
        [SORT_NEWEST, "oldest", "female", "male", "other",
         "fmale", "femal", "femails", "femail"]
      if !cmd_words.contains potential_name && pyFirstIsAlpha potential_name &&
          !excluded.contains potential_name then
        some (_capitalize_name potential_name, false)
      else none

/-- Pattern 9, `_detect_name_filter_pattern(words, gender)`: name at start
followed by a filter word (or any detected gender). -/
def _detect_name_filter_pattern (words : List String) (gender : Option String) :
    Option (String × Bool) :=
  match words with
  | first_word :: w1 :: _ =>
    let filter_words : List String :=
      ["female", "male", "other", SORT_NEWEST, "oldest", "latest", "recent",
       SORT_LONGEST, SORT_SHORTEST, "with", "without", "no"]
    let excluded_first_words : List String :=
      ["female", "male", "other", "fmale", "femal",
       SORT_NEWEST, "oldest", "latest", "recent",
       SORT_LONGEST, SORT_SHORTEST, "alphabetical", "sorted"]
    if excluded_first_words.contains first_word then none
    else if !_COMMAND_WORDS.contains first_word && pyFirstIsAlpha first_word &&
        (filter_words.contains w1 || gender.isSome) then
      some (_capitalize_name first_word, false)
    else none
  | _ => none

/-- Pattern 10, `_detect_with_name_pattern(query_lower, gender,
has_profile_pic)`: "with X" read as a name when a gender was detected and no
profile-picture filter was. -/
def _detect_with_name_pattern (query_lower : String) (gender : Option String)
    (has_profile_pic : Option Bool) : Option (String × Bool) :=
  if gender.isNone || has_profile_pic.isSome then none
  else
    let excluded_with : List String :=
      ["a", "an", "the", "that", "is", "of", "odd", "even",
       "profile", "pic", "picture", "photo", "avatar"]
    match _extract_word_after query_lower ["with"] excluded_with with
    | some name => some (_capitalize_name name, false)
    | none => none

/-- `detect_name_search(query_lower, gender, has_profile_pic)`: the ten
pattern matchers tried strictly in order, first hit wins. -/
def detect_name_search (query_lower : String) (gender : Option String)
    (has_profile_pic : Option Bool) : Option String × Bool :=
  let words := pySplitWs query_lower
  match _detect_show_x_names words with
  | some r => (some r.1, r.2)
  | none =>
  match _detect_starts_with_pattern query_lower words with
  | some r => (some r.1, r.2)
  | none =>
  match _detect_letter_in_name words with
  | some r => (some r.1, r.2)
  | none =>
  match _detect_containing_pattern words with
  | some r => (some r.1, r.2)
  | none =>
  match _detect_name_like_pattern words with
  | some r => (some r.1, r.2)
  | none =>
  match _detect_named_called_pattern query_lower with
  | some r => (some r.1, r.2)
  | none =>
  match _detect_show_name_filter words with
  | some r => (some r.1, r.2)
  | none =>
  match _detect_name_users_pattern words with
  | some r => (some r.1, r.2)
  | none =>
  match _detect_name_filter_pattern words gender with
  | some r => (some r.1, r.2)
  | none =>
  match _detect_with_name_pattern query_lower gender has_profile_pic with
  | some r => (some r.1, r.2)
  | none => (none, false)

example : detect_name_search "users starting with j" none none = (some "J", true) := by decide
example : detect_name_search "names containing male" (some "Male") none =
    (some "Male", false) := by decide

/-! ### `ai/detectors.py` — bare name and complex query detection -/

def _QUERY_INDICATORS : List String :=
  ["find", "show", "list", "get", "search", "display", "give", "fetch",
   "user", "users", "people", "person", "all", "every",
   "with", "without", "who", "whose", "where", "that", "which",
   "the", "and", "or", "not",
   "longest", "shortest", "oldest", "newest", "first", "last",
   "name", "named", "called", "username", "picture", "photo", "profile",
   "alphabetical", "alphabetically", "sorted", "sort", "order", "ordered",
   "a-z", "z-a", "ascending", "descending",
   "female", "male", "other", "non-binary", "nonbinary"]

/-- `_is_valid_name_chars(text)`: starts with a letter; only letters,
apostrophes, spaces and hyphens. -/
def _is_valid_name_chars (text : String) : Bool :=
  match text.data with
  | [] => false
  | c :: _ =>
    pyIsAlphaChar c &&
      text.data.all (fun ch => pyIsAlphaChar ch || ch == apostrophe || ch == ' ' || ch == '-')

/-- `detect_bare_name(query_lower, query_original)`. -/
def detect_bare_name (query_lower query_original : String) : Option String :=
  let words := pySplitWs query_lower
  if decide (query_original.length = 1) && pyStrIsAlpha query_original then
    some (pyUpper query_original)
  else if words.any (fun w => _QUERY_INDICATORS.contains w) then none
  else if !(decide (1 ≤ words.length) && decide (words.length ≤ 4)) then none
  else if !(decide (2 ≤ query_original.length) && decide (query_original.length ≤ 40)) then none
  else if !_is_valid_name_chars query_original then none
  else some (pyTitle query_original)

def _COMPLEX_WORDS : List String :=
  ["whose", "rhyme", "longer", "shorter", "exactly", "more", "less",
   "three", "two", "contains", "ends", "birthdate",
   "birthday", "age", "registered", "password"]

/-- `is_complex_query(query_lower)`. -/
def is_complex_query (query_lower : String) : Bool :=
  _COMPLEX_WORDS.any (fun w => pyContains query_lower w)

example : detect_bare_name "adam" "Adam" = some "Adam" := by decide
example : detect_bare_name "find adam" "find Adam" = none := by decide
example : is_complex_query "users whose age" = true := by decide

/-! ### `ai/models.py` — the FilterSpec data model -/

/-- `UserQueryFilters` (pydantic model): the structured filters extracted
from a natural-language query, with the model's field defaults. -/
structure UserQueryFilters where
  gender : Option String := none
  name_substr : Option String := none
  starts_with_mode : Bool := false
  name_length_parity : Option String := none
  has_profile_pic : Option Bool := none
  sort_by : Option String := none
  sort_order : String := "desc"
  query_understood : Bool := true
  parse_warnings : List String := []
deriving DecidableEq, Repr

/-! ### `ai/query_parser.py` — query normalization -/

def _ABBREVIATIONS : List (String × String) :=
  [(" w/o ", " without "), (" w/ ", " with "), (" w ", " with "),
   (" pic ", " picture "), (" pics ", " pictures "),
   (" u ", " you "), (" ur ", " your "), (" ppl ", " people "),
   (" dont ", " don\x27t "), (" doesnt ", " doesn\x27t "),
   (" cant ", " can\x27t "), (" wont ", " won\x27t ")]

def _SYNONYMS : List (String × String) :=
  [("begin with", PATTERN_STARTS_WITH), ("begins with", PATTERN_STARTS_WITH),
   ("beginning with", "starting with"), ("start at", PATTERN_STARTS_WITH),
   ("big ", SORT_LONGEST ++ " "), ("bigger ", SORT_LONGEST ++ " "),
   ("biggest ", SORT_LONGEST ++ " "),
   ("small ", SORT_SHORTEST ++ " "), ("smaller ", SORT_SHORTEST ++ " "),
   ("smallest ", SORT_SHORTEST ++ " "),
   ("recent ", SORT_NEWEST ++ " "), ("new ", SORT_NEWEST ++ " "),
   ("latest ", SORT_NEWEST ++ " "),
   ("signups", "users"),
   ("women ", "female "), ("men ", "male "),
   ("guys", "male users"), ("gals", "female users"), ("ladies", "female users"),
   ("gentlemen", "male users"),
   ("non-binary", "other gender"), ("nonbinary", "other gender"),
   ("nb ", "other gender "),
   ("avatar", "profile picture"), ("avatars", "profile pictures"),
   ("photo", "picture"), ("photos", "pictures"),
   ("image", "picture"), ("images", "pictures")]

def _STARTERS : List String :=
  ["show me", "find me", "get me", "list me", "give me",
   "show", "find", "get", "list", "search", "display"]

def _CONSOLIDATIONS : List (String × String) :=
  [("females", "female"), ("males", "male"), ("users", "user"),
   ("people", "user"), ("persons", "user"),
   ("all the", "all"), ("with the name", "named"), ("with the", "with"),
   ("in the", "in"), ("whose name ", "whose names "), ("called", "named")]

def _FILLER_WORDS : List String :=
  ["please", "could you", "can you", "would you", "will you", "the", "an", "my"]

/-- Step 3 of `normalize_query`: rewrite the first matching command-verb
starter to the canonical "show" (first match wins, then stop). -/
def applyStarters (q : String) : List String → String
  | [] => q
  | starter :: rest =>
    if pyStartsWith q (starter ++ " ") then "show " ++ pyStrip (pyDrop q starter.length)
    else applyStarters q rest

/-- `normalize_query(query)`: lower/trim, newline truncation, whitespace
collapse, then the ordered replacement steps 1–5. -/
def normalize_query (query : String) : String :=
  let q := pyStrip (pyLower query)
  let q := if pyContains q "\n" then pyStrip (pyTakeUntilChar q '\n') else q
  let q := String.intercalate " " (pySplitWs q)
  let q := pyReplaceAll q _ABBREVIATIONS
  let q := pyReplaceAll q _SYNONYMS
  let q := applyStarters q _STARTERS
  let q := pyReplaceAll q _CONSOLIDATIONS
  let words := (pySplitWs q).filter (fun w => !_FILLER_WORDS.contains w)
  String.intercalate " " words

example : normalize_query "Show me female users" = "show female user" := by decide
example : normalize_query "find females" = "show female" := by decide
example : normalize_query "start the at" = "start at" := by decide
example : normalize_query "start at" = "starts with" := by decide

/-! ### `ai/query_parser.py` — exact-match pattern table -/

def SIMPLE_QUERY_PATTERNS : List (String × UserQueryFilters) :=
  [("list all female", { gender := some "Female" }),
   ("show all female", { gender := some "Female" }),
   ("all female users", { gender := some "Female" }),
   ("female users", { gender := some "Female" }),
   ("show female", { gender := some "Female" }),
   ("all females", { gender := some "Female" }),
   ("list females", { gender := some "Female" }),
   ("list all male", { gender := some "Male" }),
   ("show all male", { gender := some "Male" }),
   ("all male users", { gender := some "Male" }),
   ("male users", { gender := some "Male" }),
   ("show male", { gender := some "Male" }),
   ("all males", { gender := some "Male" }),
   ("list males", { gender := some "Male" }),
   ("list all other", { gender := some "Other" }),
   ("show all other", { gender := some "Other" }),
   ("other users", { gender := some "Other" }),
   ("list all users", {}),
   ("show all users", {}),
   ("all users", {})]

/-! ### `ai/query_parser.py` — the heuristic parser -/

/-- The combination logic of `simple_parse_query` with the function's local
variables (the detector outputs) made explicit parameters: `warnings0` from
`detect_unsupported_patterns`, `sorting` from `detect_sorting`, profile /
parity filters, `gres` from `detect_gender` (gender, warning), `ns` from
`detect_name_search`, `bare` from `detect_bare_name` and the
`is_complex_query` flag.  (`detect_bare_name` is pure, so passing its result
unconditionally and using it only in the no-filter case is the same as
Python's conditional call.) -/
def combine_detections (warnings0 : List String) (sorting : Option String × String)
    (has_profile_pic : Option Bool) (name_length_parity : Option String)
    (gres : Option String × Option String) (ns : Option String × Bool)
    (bare : Option String) (complex_flag : Bool) : Option UserQueryFilters :=
  let parse_warnings := warnings0 ++ (match gres.2 with | some w => [w] | none => [])
  let has_no_filters := gres.1.isNone && ns.1.isNone && name_length_parity.isNone &&
    has_profile_pic.isNone && sorting.1.isNone
  let name_substr := if has_no_filters then bare else ns.1
  if has_no_filters && name_substr.isNone && complex_flag then none
  else
    let has_any_filter := gres.1.isSome || name_substr.isSome || name_length_parity.isSome ||
      has_profile_pic.isSome || sorting.1.isSome
    if has_any_filter then
      some { gender := gres.1, name_substr := name_substr, starts_with_mode := ns.2,
             name_length_parity := name_length_parity, has_profile_pic := has_profile_pic,
             sort_by := sorting.1, sort_order := sorting.2,
             query_understood := true, parse_warnings := parse_warnings }
    else if parse_warnings ≠ [] then
      some { query_understood := false, parse_warnings := parse_warnings }
    else none

/-- `simple_parse_query(user_query)`: run all detectors on the lowered,
stripped query and combine their results; `none` models the Python `None`
("query too complex, escalate to AI"). -/
def simple_parse_query (user_query : String) : Option UserQueryFilters :=
  combine_detections
    (detect_unsupported_patterns (pyStrip (pyLower user_query)))
    (detect_sorting (pyStrip (pyLower user_query)))
    (detect_profile_pic_filter (pyStrip (pyLower user_query)))
    (detect_name_length_parity (pyStrip (pyLower user_query)))
    (detect_gender (pyStrip (pyLower user_query)))
    (detect_name_search (pyStrip (pyLower user_query))
      (detect_gender (pyStrip (pyLower user_query))).1
      (detect_profile_pic_filter (pyStrip (pyLower user_query))))
    (detect_bare_name (pyStrip (pyLower user_query)) (pyStrip user_query))
    (is_complex_query (pyStrip (pyLower user_query)))

example : simple_parse_query "users starting with J" =
    some { name_substr := some "J", starts_with_mode := true } := by decide
example : simple_parse_query "Adam" = some { name_substr := some "Adam" } := by decide
example : simple_parse_query "find Adam" = none := by decide
example : simple_parse_query "users whose age" = none := by decide
example : simple_parse_query "not blue green red yellow" =
    some { query_understood := false,
           parse_warnings :=
             ["Negation/exclusion queries are not supported - showing matching results instead"] }
  := by decide

/-! ### `ai/query_parser.py` — AI response field validation

The AI tier's raw LLM text handling (`_extract_json_from_response`,
`json.loads`) is modelled one level up: an AI attempt either fails at call
level (timeout, transport error, unparseable JSON) or yields a parsed JSON
object.  JSON scalar values are modelled by `PyVal`; a parsed AI response
(`parsed_dict`) by `AIDict`, whose fields are `none` when the key is absent.
-/

/-- A Python/JSON scalar value as handled by the field validators. -/
inductive PyVal where
  | str : String → PyVal
  | bool : Bool → PyVal
  | int : Int → PyVal
  | null : PyVal
deriving DecidableEq, Repr

/-- A parsed AI response object restricted to the seven keys the prompt
demands and the sanitizer inspects; `none` = key absent. -/
structure AIDict where
  gender : Option PyVal := none
  name_substr : Option PyVal := none
  starts_with_mode : Option PyVal := none
  name_length_parity : Option PyVal := none
  has_profile_pic : Option PyVal := none
  sort_by : Option PyVal := none
  sort_order : Option PyVal := none
deriving DecidableEq, Repr

/-- `_validate_gender(value)`: non-strings pass through; strings must
normalize to one of the three enum values, else `null`. -/
def _validate_gender (value : PyVal) : PyVal :=
  match value with
  | .str s =>
    let normalized := pyCapitalize (pyStrip s)
    if ["Male", "Female", "Other"].contains normalized then .str normalized
    else .null
  | other => other

/-- The `invalid_values` set of `_validate_name_substr`: words that are not
actual names (gender words, command/filter words, sort words, profile words,
miscellaneous). -/
def _NAME_SUBSTR_INVALID_VALUES : List String :=
  ["male", "female", "other", "fmale", "femal", "non-binary", "nonbinary",
   "user", "users", "all", "null", "none", "",
   "newest", "oldest", "longest", "shortest", "alphabetical", "sorted",
   "recent", "latest", "first", "last",
   "profile", "picture", "photo", "avatar", "pic",
   "with", "without", "ends", "order"]

/-- `_validate_name_substr(value)`: strip outer whitespace and
quote/bracket characters; reject reserved tokens and the empty string. -/
def _validate_name_substr (value : PyVal) : PyVal :=
  match value with
  | .str s =>
    let cleaned := pyStripSet [apostrophe, '"', '[', ']'] (pyStrip s)
    if _NAME_SUBSTR_INVALID_VALUES.contains (pyLower cleaned) then .null
    else if cleaned ≠ "" then .str cleaned
    else .null
  | other => other

/-- `_validate_boolean_field(value)`: booleans pass; recognized string
equivalents coerce; everything else becomes `null` (Python `None`). -/
def _validate_boolean_field (value : PyVal) : PyVal :=
  match value with
  | .bool b => .bool b
  | .str s =>
    let lower := pyLower (pyStrip s)
    if ["true", "1", "yes"].contains lower then .bool true
    else if ["false", "0", "no"].contains lower then .bool false
    else .null
  | _ => .null

/-- `_validate_sort_by(value)`. -/
def _validate_sort_by (value : PyVal) : PyVal :=
  match value with
  | .str s =>
    let normalized := pyLower (pyStrip s)
    if ["name_length", "username_length", "name", "username", "created_at"].contains
        normalized then .str normalized
    else .null
  | other => other

/-- `_validate_sort_order(value)`: always yields a string, defaulting to
"desc" on anything unrecognized. -/
def _validate_sort_order (value : PyVal) : String :=
  match value with
  | .str s =>
    let normalized := pyLower (pyStrip s)
    if normalized == "asc" || normalized == "desc" then normalized else "desc"
  | _ => "desc"

/-- `_validate_parity(value)`. -/
def _validate_parity (value : PyVal) : PyVal :=
  match value with
  | .str s =>
    let normalized := pyLower (pyStrip s)
    if ["odd", "even"].contains normalized then .str normalized
    else .null
  | other => other

/-- `_sanitize_ai_response(parsed_dict)`: each present key is validated
independently; `starts_with_mode` additionally replaces a failed validation
(`null`) by `False`. -/
def _sanitize_ai_response (parsed_dict : AIDict) : AIDict :=
  { gender := parsed_dict.gender.map _validate_gender,
    name_substr := parsed_dict.name_substr.map _validate_name_substr,
    starts_with_mode := parsed_dict.starts_with_mode.map (fun v =>
      match _validate_boolean_field v with
      | .null => .bool false
      | w => w),
    name_length_parity := parsed_dict.name_length_parity.map _validate_parity,
    has_profile_pic := parsed_dict.has_profile_pic.map _validate_boolean_field,
    sort_by := parsed_dict.sort_by.map _validate_sort_by,
    sort_order := parsed_dict.sort_order.map (fun v => PyVal.str (_validate_sort_order v)) }

example : _sanitize_ai_response { gender := some (.str "robot") } =
    { gender := some .null } := by decide

/-! ### pydantic construction of `UserQueryFilters` from a sanitized response

`UserQueryFilters(**parsed_dict)` validates the (already sanitized) dict
against the model's field types; a validation failure raises, which
`parse_query_ai`'s catch-all turns into the default-filter fallback.  The
model below accepts exactly the values pydantic v2 accepts on the sanitizer's
possible outputs: strings (or JSON null) for the optional string fields,
booleans for the boolean fields, a string for `sort_order`; anything else
(e.g. a non-string value passed through a validator unchanged) fails. -/

def pyvalToOptStr : Option PyVal → Option (Option String)
  | none => some none
  | some (.str s) => some (some s)
  | some .null => some none
  | some _ => none

def pyvalToOptBool : Option PyVal → Option (Option Bool)
  | none => some none
  | some (.bool b) => some (some b)
  | some .null => some none
  | some _ => none

/-- Build the pydantic model from a sanitized AI response; `none` models a
pydantic `ValidationError`. -/
def mkUserQueryFilters (d : AIDict) : Option UserQueryFilters := do
  let gender ← pyvalToOptStr d.gender
  let name_substr ← pyvalToOptStr d.name_substr
  let starts_with_mode ←
    match d.starts_with_mode with
    | none => some false
    | some (.bool b) => some b
    | some _ => none
  let name_length_parity ← pyvalToOptStr d.name_length_parity
  let has_profile_pic ← pyvalToOptBool d.has_profile_pic
  let sort_by ← pyvalToOptStr d.sort_by
  let sort_order ←
    match d.sort_order with
    | none => some "desc"
    | some (.str s) => some s
    | some _ => none
  some { gender := gender, name_substr := name_substr, starts_with_mode := starts_with_mode,
         name_length_parity := name_length_parity, has_profile_pic := has_profile_pic,
         sort_by := sort_by, sort_order := sort_order }

/-! ### `ai/cache.py` — the in-memory cache

The deployment modelled here has no distributed backend (`USE_REDIS` is
false: when available it only mirrors the in-memory writes and can only add
hits, never remove them), and the periodic file snapshot is a persistence
side effect invisible to lookups within a process.  What remains is the
in-memory dict `IN_MEMORY_CACHE`, modelled as an association list where an
insert shadows earlier entries for the same key (Python dict assignment). -/

def Cache := List (String × UserQueryFilters)
deriving DecidableEq

def cacheEmpty : Cache := ([] : List (String × UserQueryFilters))

/-- Dict lookup `IN_MEMORY_CACHE.get(k)`. -/
def cacheLookup (c : Cache) (k : String) : Option UserQueryFilters :=
  List.lookup k (c : List (String × UserQueryFilters))

/-- Dict assignment `IN_MEMORY_CACHE[k] = v`. -/
def cacheInsert (c : Cache) (k : String) (v : UserQueryFilters) : Cache :=
  ((k, v) :: (c : List (String × UserQueryFilters)) : List (String × UserQueryFilters))

/-- `get_cached_query(query, normalize_func)`: exact in-memory hit, then
fuzzy hit under the normalized key (which also self-heals by writing the
result back under the exact key — hence the returned cache state). -/
def get_cached_query (c : Cache) (query : String)
    (normalize_func : Option (String → String)) : Option (UserQueryFilters × Cache) :=
  match cacheLookup c query with
  | some v => some (v, c)
  | none =>
    match normalize_func with
    | some f =>
      match cacheLookup c (f query) with
      | some v => some (v, cacheInsert c query v)
      | none => none
    | none => none

/-- `cache_query(query, filters, normalize_func)`: write under the raw key,
then under the normalized key. -/
def cache_query (c : Cache) (query : String) (filters : UserQueryFilters)
    (normalize_func : Option (String → String)) : Cache :=
  let normalized := match normalize_func with | some f => f query | none => query
  cacheInsert (cacheInsert c query filters) normalized filters

/-! ### `ai/query_parser.py` — the orchestrator `parse_query_ai`

The AI tier is modelled by an explicit parameter `aiResponse : Option AIDict`:
`some d` means the LLM call succeeded and its text parsed as the JSON object
`d`; `none` means the call failed at call level (an `httpx` timeout or
transport error, or `json.JSONDecodeError`).  The orchestrator's result
carries the returned filters, the cache state after the call, and whether the
AI tier's LLM client was invoked. -/

structure ParseRun where
  result : UserQueryFilters
  cache : Cache
  aiInvoked : Bool
deriving DecidableEq

/-- Tier 3 of `parse_query_ai` (the `try`/`except` block): an AI attempt that
fails at call level, or whose sanitized response fails model validation,
yields the default FilterSpec and leaves the cache untouched; a successful
attempt is cached. -/
def ai_tier (cache : Cache) (user_query : String) (aiResponse : Option AIDict) : ParseRun :=
  match aiResponse with
  | none => { result := {}, cache := cache, aiInvoked := true }
  | some parsed_dict =>
    match mkUserQueryFilters (_sanitize_ai_response parsed_dict) with
    | some r =>
      { result := r, cache := cache_query cache user_query r (some normalize_query),
        aiInvoked := true }
    | none => { result := {}, cache := cache, aiInvoked := true }

/-- The tier cascade of `parse_query_ai` with the function's local variables
(`user_query` after `strip`, `query_lower`, `normalized_query`) made explicit
parameters. -/
def parse_query_ai_tiers (cache : Cache) (user_query query_lower normalized_query : String)
    (aiResponse : Option AIDict) : ParseRun :=
  match get_cached_query cache user_query (some normalize_query) with
  | some (r, c2) => { result := r, cache := c2, aiInvoked := false }
  | none =>
  match SIMPLE_QUERY_PATTERNS.lookup query_lower with
  | some r =>
    { result := r, cache := cache_query cache user_query r (some normalize_query),
      aiInvoked := false }
  | none =>
  match SIMPLE_QUERY_PATTERNS.lookup normalized_query with
  | some r =>
    { result := r, cache := cache_query cache user_query r (some normalize_query),
      aiInvoked := false }
  | none =>
  match simple_parse_query normalized_query with
  | some r =>
    { result := r, cache := cache_query cache user_query r (some normalize_query),
      aiInvoked := false }
  | none =>
  match (if normalized_query ≠ user_query then simple_parse_query user_query else none) with
  | some r =>
    { result := r, cache := cache_query cache user_query r (some normalize_query),
      aiInvoked := false }
  | none => ai_tier cache user_query aiResponse

/-- `parse_query_ai(user_query)` over an explicit cache state and AI outcome. -/
def parse_query_ai (cache : Cache) (user_query0 : String) (aiResponse : Option AIDict) :
    ParseRun :=
  parse_query_ai_tiers cache (pyStrip user_query0) (pyLower (pyStrip user_query0))
    (normalize_query (pyStrip user_query0)) aiResponse

example : (parse_query_ai cacheEmpty "users whose age" none).aiInvoked = true := by decide
example : (parse_query_ai cacheEmpty "Adam" none).aiInvoked = false := by decide
example : (parse_query_ai (parse_query_ai cacheEmpty "Adam" none).cache "Adam" none).aiInvoked
    = false := by decide

/-! ## Supporting lemmas -/

/-- A `cache_query` write is visible under the raw query key. -/
theorem cacheLookup_cache_query (c : Cache) (q : String) (f : UserQueryFilters)
    (nf : Option (String → String)) : cacheLookup (cache_query c q f nf) q = some f := by
  simp only [cache_query, cacheInsert, cacheLookup, List.lookup]
  split <;> simp_all

/-- After a cache hit, the (possibly self-healed) cache still holds the
result under the exact query key. -/
theorem get_cached_query_lookup (c : Cache) (q : String)
    (nf : Option (String → String)) (v : UserQueryFilters) (c2 : Cache)
    (h : get_cached_query c q nf = some (v, c2)) : cacheLookup c2 q = some v := by
  unfold get_cached_query at h
  split at h
  · simp_all
  · split at h
    · split at h
      · simp only [Option.some.injEq, Prod.mk.injEq] at h
        obtain ⟨rfl, rfl⟩ := h
        simp_all [cacheLookup, cacheInsert, List.lookup]
      · exact absurd h (by simp)
    · exact absurd h (by simp)

/-! ## Claim C2 — normalization idempotence -/

/-- C2 counterexample: `normalize_query` is NOT idempotent for every query.
Removing the filler word "the" from "start the at" creates the phrase
"start at", which a second normalization pass rewrites to "starts with". -/
theorem normalize_query_not_idempotent_counterexample :
    normalize_query (normalize_query "start the at") ≠ normalize_query "start the at" := by
  decide

/-- C2 (amended): `normalize_query` is a pure deterministic function (it is a
Lean function of its argument alone), and idempotence, while false in
general, does hold on representative simple queries such as the spec's own
examples "find females" and "show me female users". -/
theorem normalize_query_idempotent_on_examples :
    normalize_query (normalize_query "find females") = normalize_query "find females" ∧
    normalize_query (normalize_query "show me female users") =
      normalize_query "show me female users" ∧
    normalize_query (normalize_query "users starting with J") =
      normalize_query "users starting with J" := by
  decide

/-! ## Claim C4 — `name_substr` and reserved tokens -/

/-- C4 counterexample: the heuristic parser does NOT keep reserved tokens out
of `name_substr`: the "containing X" matcher only excludes articles, so
"names containing male" produces `name_substr = "Male"`, whose lower-casing
is the reserved gender word "male". -/
theorem name_substr_reserved_token_counterexample :
    (simple_parse_query "names containing male").map UserQueryFilters.name_substr =
      some (some "Male") ∧
    _NAME_SUBSTR_INVALID_VALUES.contains (pyLower "Male") = true := by
  decide

/-- C4 (amended): the AI sanitizer's `_validate_name_substr` does enforce the
invariant — any string it lets through is not a reserved token (gender word,
command word, sort word, profile word) after lower-casing; the heuristic
parser does not enforce it in general. -/
theorem validate_name_substr_no_reserved_token (v : PyVal) (s : String)
    (h : _validate_name_substr v = PyVal.str s) :
    _NAME_SUBSTR_INVALID_VALUES.contains (pyLower s) = false := by
  cases v with
  | str s0 =>
    simp only [_validate_name_substr] at h
    split at h
    · exact absurd h (by simp)
    · split at h
      · simp only [PyVal.str.injEq] at h
        subst h
        simp_all
      · exact absurd h (by simp)
  | bool b => exact absurd h (by simp [_validate_name_substr])
  | int n => exact absurd h (by simp [_validate_name_substr])
  | null => exact absurd h (by simp [_validate_name_substr])

/-- Witness for C4's amended theorem at a concrete accepted value. -/
theorem validate_name_substr_no_reserved_token_witness :
    _NAME_SUBSTR_INVALID_VALUES.contains (pyLower "Adam") = false :=
  validate_name_substr_no_reserved_token (PyVal.str " Adam ") "Adam" (by decide)

/-! ## Claim C5 — gender precedence scenarios -/

/-- C5: the gender detector's stated scenarios: "female users" → Female,
"male users" → Male, "other gender users" → Other, and the name-prefix guard
keeps "named mary" (the lower-cased form of "named Mary") genderless. -/
theorem detect_gender_scenarios :
    detect_gender "female users" = (some "Female", none) ∧
    detect_gender "male users" = (some "Male", none) ∧
    detect_gender "other gender users" = (some "Other", none) ∧
    detect_gender "named mary" = (none, none) := by
  decide

/-! ## Claim C6 — heuristic name-detection scenarios -/

/-- C6: name-pattern scenarios of the heuristic parser: "users starting with
J" yields `name_substr = "J"` in starts-with mode, the bare query "Adam"
yields `name_substr = "Adam"`, and "find Adam" is unresolved by the heuristic
tier (the command word "find" blocks bare-name detection), so no
`name_substr` is produced there. -/
theorem simple_parse_name_scenarios :
    simple_parse_query "users starting with J" =
      some { name_substr := some "J", starts_with_mode := true } ∧
    simple_parse_query "Adam" = some { name_substr := some "Adam" } ∧
    simple_parse_query "find Adam" = none := by
  decide

/-! ## Claim C7 — sort detection -/

/-- C7: sort-detection scenarios ("longest username" → username_length desc,
"shortest name" → name_length asc) and the default: whenever no sort field is
detected, the returned sort order is "desc".  (The length → date →
alphabetical → explicit priority with first match winning is the very shape
of `detect_sorting`.) -/
theorem detect_sorting_scenarios_and_default :
    detect_sorting "longest username" = (some "username_length", "desc") ∧
    detect_sorting "shortest name" = (some "name_length", "asc") ∧
    ∀ q : String, (detect_sorting q).1 = none → (detect_sorting q).2 = "desc" := by
  refine ⟨by decide, by decide, ?_⟩
  intro q
  simp only [detect_sorting]
  cases _detect_length_sorting q (pySplitWs q)
      (pyContains q "username" || pyContains q "usernames")
      (pyContains q "name" || pyContains q "names") with
  | some r => simp
  | none =>
    cases _detect_date_sorting q with
    | some r => simp
    | none =>
      cases _detect_alpha_sorting q
          (pyContains q "username" || pyContains q "usernames")
          (pyContains q "name" || pyContains q "names") with
      | some r => simp
      | none =>
        cases _detect_explicit_sort (pySplitWs q) with
        | some r => simp
        | none => simp

/-- Witness for C7's defaulting clause at a sort-free query. -/
theorem detect_sorting_default_witness : (detect_sorting "hello").2 = "desc" :=
  detect_sorting_scenarios_and_default.2.2 "hello" (by decide)

/-! ## Claim C8 — per-field, fail-soft AI sanitization -/

/-- C8 counterexample: sanitization is NOT fail-soft for every invalid field
value.  A non-string invalid value — here `gender = 5` — passes through
`_validate_gender` un-nulled, the sanitized response then fails pydantic
model validation (`mkUserQueryFilters = none`), and the orchestrator's
catch-all collapses the whole parse to the default filter, discarding the
other, valid fields (the response's `sort_by = "name_length"` is lost). -/
theorem sanitize_ai_response_not_fail_soft_counterexample :
    (_sanitize_ai_response { gender := some (.int 5) }).gender = some (PyVal.int 5) ∧
    mkUserQueryFilters (_sanitize_ai_response
      { gender := some (.int 5), sort_by := some (.str "name_length") }) = none ∧
    (parse_query_ai cacheEmpty "users whose age"
        (some { gender := some (.int 5), sort_by := some (.str "name_length") })).result =
      ({} : UserQueryFilters) := by
  decide

/-- C8 (amended): AI-response sanitization is per-field and fail-soft for
string-valued fields:
(1) every invalid STRING value of `gender`, `sort_by` or `name_length_parity`
is set to null (a response containing `gender = "robot"` is sanitized to a
null gender — rejected, not raised);
(2) `_validate_sort_order` maps every unrecognized value (any non-string, or
any string not normalizing to "asc"/"desc") to "desc";
(3) each sanitized field depends only on the corresponding input field, so an
invalid value in one field cannot abort or alter the sanitization of the
others.
A non-string invalid value, however, passes through its validator unchanged
and makes the subsequent pydantic model construction — and with it the whole
parse — fail (see the counterexample). -/
theorem sanitize_ai_response_string_fail_soft :
    (∀ s : String,
      (["Male", "Female", "Other"].contains (pyCapitalize (pyStrip s))) = false →
      _validate_gender (PyVal.str s) = PyVal.null) ∧
    (∀ s : String,
      (["name_length", "username_length", "name", "username", "created_at"].contains
        (pyLower (pyStrip s))) = false →
      _validate_sort_by (PyVal.str s) = PyVal.null) ∧
    (∀ s : String, (["odd", "even"].contains (pyLower (pyStrip s))) = false →
      _validate_parity (PyVal.str s) = PyVal.null) ∧
    (_sanitize_ai_response { gender := some (.str "robot") } = { gender := some .null }) ∧
    (∀ v : PyVal,
      (∀ s, v = PyVal.str s →
        ¬(pyLower (pyStrip s) = "asc" ∨ pyLower (pyStrip s) = "desc")) →
      _validate_sort_order v = "desc") ∧
    (∀ d₁ d₂ : AIDict,
      (d₁.gender = d₂.gender →
        (_sanitize_ai_response d₁).gender = (_sanitize_ai_response d₂).gender) ∧
      (d₁.name_substr = d₂.name_substr →
        (_sanitize_ai_response d₁).name_substr = (_sanitize_ai_response d₂).name_substr) ∧
      (d₁.starts_with_mode = d₂.starts_with_mode →
        (_sanitize_ai_response d₁).starts_with_mode =
          (_sanitize_ai_response d₂).starts_with_mode) ∧
      (d₁.name_length_parity = d₂.name_length_parity →
        (_sanitize_ai_response d₁).name_length_parity =
          (_sanitize_ai_response d₂).name_length_parity) ∧
      (d₁.has_profile_pic = d₂.has_profile_pic →
        (_sanitize_ai_response d₁).has_profile_pic =
          (_sanitize_ai_response d₂).has_profile_pic) ∧
      (d₁.sort_by = d₂.sort_by →
        (_sanitize_ai_response d₁).sort_by = (_sanitize_ai_response d₂).sort_by) ∧
      (d₁.sort_order = d₂.sort_order →
        (_sanitize_ai_response d₁).sort_order = (_sanitize_ai_response d₂).sort_order)) := by
  refine ⟨?_, ?_, ?_, by decide, ?_, ?_⟩
  · intro s h
    simp at h
    simp [_validate_gender, h]
  · intro s h
    simp at h
    simp [_validate_sort_by, h]
  · intro s h
    simp at h
    simp [_validate_parity, h]
  · intro v h
    cases v with
    | str s =>
      have h1 := h s rfl
      simp only [not_or] at h1
      simp only [_validate_sort_order]
      have hb1 : (pyLower (pyStrip s) == "asc") = false := by
        simpa using h1.1
      have hb2 : (pyLower (pyStrip s) == "desc") = false := by
        simpa using h1.2
      rw [hb1, hb2]
      rfl
    | bool b => rfl
    | int n => rfl
    | null => rfl
  · intro d₁ d₂
    refine ⟨?_, ?_, ?_, ?_, ?_, ?_, ?_⟩ <;>
      (intro h; simp only [_sanitize_ai_response, h])

/-- Witness for C8's hypothesized clauses at concrete inputs. -/
theorem sanitize_ai_response_string_fail_soft_witness :
    _validate_gender (PyVal.str "robot") = PyVal.null ∧
    _validate_sort_order (PyVal.str "upward") = "desc" ∧
    (_sanitize_ai_response { gender := some (.str "robot"), sort_by := some (.str "junk") }).gender
      = (_sanitize_ai_response { gender := some (.str "robot") }).gender := by
  refine ⟨?_, ?_, ?_⟩
  · exact sanitize_ai_response_string_fail_soft.1 "robot" (by decide)
  · exact sanitize_ai_response_string_fail_soft.2.2.2.2.1 (PyVal.str "upward")
      (by intro s hs; cases hs; decide)
  · exact (sanitize_ai_response_string_fail_soft.2.2.2.2.2
      { gender := some (.str "robot"), sort_by := some (.str "junk") }
      { gender := some (.str "robot") }).1 rfl

/-! ## Claim C1 — AI-tier failure fallback -/

/-- C1: `parse_query_ai` always returns a FilterSpec; when the AI tier is
reached (cache miss, no pattern-table hit, heuristic parser unresolved on
both the normalized and the original query) and the LLM call fails at call
level (timeout, transport error, or unparseable JSON — `aiResponse = none`),
it returns the default empty FilterSpec — `query_understood = true`, no
warnings, no filter fields — and leaves every cache tier untouched. -/
theorem parse_query_ai_failure_returns_default (c : Cache) (q : String)
    (h1 : get_cached_query c (pyStrip q) (some normalize_query) = none)
    (h2 : SIMPLE_QUERY_PATTERNS.lookup (pyLower (pyStrip q)) = none)
    (h3 : SIMPLE_QUERY_PATTERNS.lookup (normalize_query (pyStrip q)) = none)
    (h4 : simple_parse_query (normalize_query (pyStrip q)) = none)
    (h5 : simple_parse_query (pyStrip q) = none) :
    parse_query_ai c q none = { result := {}, cache := c, aiInvoked := true } ∧
    ({} : UserQueryFilters) =
      { gender := none, name_substr := none, starts_with_mode := false,
        name_length_parity := none, has_profile_pic := none, sort_by := none,
        sort_order := "desc", query_understood := true, parse_warnings := [] } := by
  refine ⟨?_, rfl⟩
  unfold parse_query_ai parse_query_ai_tiers
  rw [h1, h2, h3, h4]
  split <;> simp_all [ai_tier]

/-- Witness for C1 at a query every pre-AI tier misses. -/
theorem parse_query_ai_failure_witness :
    parse_query_ai cacheEmpty "users whose age" none =
      { result := {}, cache := cacheEmpty, aiInvoked := true } ∧
    ({} : UserQueryFilters) =
      { gender := none, name_substr := none, starts_with_mode := false,
        name_length_parity := none, has_profile_pic := none, sort_by := none,
        sort_order := "desc", query_understood := true, parse_warnings := [] } :=
  parse_query_ai_failure_returns_default cacheEmpty "users whose age"
    (by decide) (by decide) (by decide) (by decide) (by decide)

/-! ## Claim C3 — cache correctness across repeated resolution -/

/-- If the query is already cached under its exact key, the tier cascade
answers from the cache and never reaches the AI tier. -/
theorem parse_query_ai_tiers_hit (c : Cache) (uq ql nq : String) (o : Option AIDict)
    (h : (cacheLookup c uq).isSome = true) :
    (parse_query_ai_tiers c uq ql nq o).aiInvoked = false := by
  obtain ⟨v, hv⟩ := Option.isSome_iff_exists.mp h
  unfold parse_query_ai_tiers get_cached_query
  rw [hv]

set_option maxHeartbeats 1600000 in
/-- Whenever a run of the tier cascade did not invoke the AI client, or
invoked it and the AI attempt succeeded, the returned cache holds the
returned result under the exact query key. -/
theorem parse_query_ai_tiers_cached (c : Cache) (uq ql nq : String) (o : Option AIDict)
    (h : (parse_query_ai_tiers c uq ql nq o).aiInvoked = false ∨
      ∃ d, o = some d ∧ (mkUserQueryFilters (_sanitize_ai_response d)).isSome = true) :
    cacheLookup (parse_query_ai_tiers c uq ql nq o).cache uq =
      some (parse_query_ai_tiers c uq ql nq o).result := by
  unfold parse_query_ai_tiers at h ⊢
  cases hg : get_cached_query c uq (some normalize_query) with
  | some rc =>
    obtain ⟨r, c2⟩ := rc
    exact get_cached_query_lookup c uq (some normalize_query) r c2 hg
  | none =>
    cases hl1 : List.lookup ql SIMPLE_QUERY_PATTERNS with
    | some r => exact cacheLookup_cache_query c uq r (some normalize_query)
    | none =>
      cases hl2 : List.lookup nq SIMPLE_QUERY_PATTERNS with
      | some r => exact cacheLookup_cache_query c uq r (some normalize_query)
      | none =>
        cases hs1 : simple_parse_query nq with
        | some r => exact cacheLookup_cache_query c uq r (some normalize_query)
        | none =>
          cases hs2 : (if nq ≠ uq then simple_parse_query uq else none) with
          | some r => exact cacheLookup_cache_query c uq r (some normalize_query)
          | none =>
            show cacheLookup (ai_tier c uq o).cache uq = some (ai_tier c uq o).result
            rw [hg, hl1, hl2, hs1, hs2] at h
            have h2 : (ai_tier c uq o).aiInvoked = false ∨
                ∃ d, o = some d ∧ (mkUserQueryFilters (_sanitize_ai_response d)).isSome = true :=
              h
            rcases h2 with h2 | ⟨d2, hd2, hsome⟩
            · cases o with
              | none => simp [ai_tier] at h2
              | some d =>
                cases hm : mkUserQueryFilters (_sanitize_ai_response d) with
                | some r =>
                  simp only [ai_tier, hm]
                  exact cacheLookup_cache_query c uq r (some normalize_query)
                | none => simp [ai_tier, hm] at h2
            · subst hd2
              cases hm : mkUserQueryFilters (_sanitize_ai_response d2) with
              | some r =>
                simp only [ai_tier, hm]
                exact cacheLookup_cache_query c uq r (some normalize_query)
              | none =>
                rw [hm] at hsome
                simp at hsome

/-- C3 counterexample: resolving the same query twice can invoke the AI
client twice.  "users whose age" misses every pre-AI tier; the first call's
AI attempt fails at call level, and because failures are not cached the
second identical call reaches the AI tier again. -/
theorem parse_query_ai_invokes_ai_twice_counterexample :
    (parse_query_ai cacheEmpty "users whose age" none).aiInvoked = true ∧
    (parse_query_ai (parse_query_ai cacheEmpty "users whose age" none).cache
      "users whose age" none).aiInvoked = true := by
  decide

/-- C3 (amended): resolving the same query twice invokes the AI client at
most once PROVIDED the first resolution did not end in an AI-tier failure —
i.e. the first call either never invoked the AI client (cache or heuristic
tier) or its AI attempt succeeded.  In that case the second call is answered
before the AI tier, whatever AI outcome `o2` it would otherwise see. -/
theorem parse_query_ai_second_call_no_ai (c : Cache) (q : String) (o o2 : Option AIDict)
    (h : (parse_query_ai c q o).aiInvoked = false ∨
      ∃ d, o = some d ∧ (mkUserQueryFilters (_sanitize_ai_response d)).isSome = true) :
    (parse_query_ai (parse_query_ai c q o).cache q o2).aiInvoked = false := by
  unfold parse_query_ai at h ⊢
  apply parse_query_ai_tiers_hit
  rw [parse_query_ai_tiers_cached c (pyStrip q) (pyLower (pyStrip q))
    (normalize_query (pyStrip q)) o h]
  rfl

/-- Witness for C3's amended theorem: "Adam" resolves in the heuristic tier,
so the second call is cache-answered. -/
theorem parse_query_ai_second_call_no_ai_witness :
    (parse_query_ai (parse_query_ai cacheEmpty "Adam" none).cache "Adam" none).aiInvoked
      = false :=
  parse_query_ai_second_call_no_ai cacheEmpty "Adam" none none (Or.inl (by decide))

/-! ## Claim C9 — the heuristic parser's outcome trichotomy -/

/-- Nothing detected plus a complex marker: the combination escalates. -/
theorem combine_detections_none (w0 : List String) (sorting : Option String × String)
    (pic : Option Bool) (parity : Option String) (g : Option String × Option String)
    (ns : Option String × Bool) (bare : Option String) (cx : Bool)
    (hg : g.1 = none) (hn : ns.1 = none) (hp : parity = none) (hpic : pic = none)
    (hs : sorting.1 = none) (hb : bare = none) (hc : cx = true) :
    combine_detections w0 sorting pic parity g ns bare cx = none := by
  simp [combine_detections, hg, hn, hp, hpic, hs, hb, hc]

/-- Any detected filter dimension (a primary detector or, with all primaries
silent, the bare-name detector) yields an understood FilterSpec. -/
theorem combine_detections_understood (w0 : List String) (sorting : Option String × String)
    (pic : Option Bool) (parity : Option String) (g : Option String × Option String)
    (ns : Option String × Bool) (bare : Option String) (cx : Bool)
    (h : (g.1.isSome || ns.1.isSome || parity.isSome || pic.isSome || sorting.1.isSome ||
      bare.isSome) = true) :
    ∃ f, combine_detections w0 sorting pic parity g ns bare cx = some f ∧
      f.query_understood = true := by
  rcases g with ⟨g1, g2⟩
  rcases ns with ⟨n1, n2⟩
  rcases sorting with ⟨s1, s2⟩
  cases g1 <;> cases n1 <;> cases parity <;> cases pic <;> cases s1 <;> cases bare <;>
    simp_all [combine_detections]

/-- Every FilterSpec the combination produces is either understood, or a
warnings-only not-understood spec with no filter fields. -/
theorem combine_detections_shape (w0 : List String) (sorting : Option String × String)
    (pic : Option Bool) (parity : Option String) (g : Option String × Option String)
    (ns : Option String × Bool) (bare : Option String) (cx : Bool) (f : UserQueryFilters)
    (h : combine_detections w0 sorting pic parity g ns bare cx = some f) :
    f.query_understood = true ∨
      (f.query_understood = false ∧ f.parse_warnings ≠ [] ∧ f.gender = none ∧
       f.name_substr = none ∧ f.name_length_parity = none ∧ f.has_profile_pic = none ∧
       f.sort_by = none) := by
  simp only [combine_detections] at h
  split at h
  all_goals
    split at h
    · exact absurd h (by simp)
    · split at h
      · rw [Option.some.injEq] at h
        subst h
        exact Or.inl rfl
      · split at h
        · rw [Option.some.injEq] at h
          subst h
          rename_i hne
          exact Or.inr ⟨rfl, hne, rfl, rfl, rfl, rfl, rfl⟩
        · exact absurd h (by simp)

/-- Warnings but no filter and no complex marker: a not-understood spec
carrying exactly the collected warnings. -/
theorem combine_detections_warnings_only (w0 : List String)
    (sorting : Option String × String) (pic : Option Bool) (parity : Option String)
    (g : Option String × Option String) (ns : Option String × Bool) (bare : Option String)
    (cx : Bool) (hg : g = (none, none)) (hn : ns.1 = none) (hp : parity = none)
    (hpic : pic = none) (hs : sorting.1 = none) (hb : bare = none) (hc : cx = false)
    (hw : w0 ≠ []) :
    combine_detections w0 sorting pic parity g ns bare cx =
      some { query_understood := false, parse_warnings := w0 } := by
  rcases sorting with ⟨s1, s2⟩
  rcases ns with ⟨n1, n2⟩
  simp only at hn hs
  subst hg hp hpic hb hc hn hs
  simp [combine_detections, hw]

/-- A heuristic-tier hit in the cascade: the result is returned and cached. -/
theorem parse_query_ai_tiers_simple_hit (c : Cache) (uq ql nq : String) (o : Option AIDict)
    (r : UserQueryFilters)
    (hg : get_cached_query c uq (some normalize_query) = none)
    (h2 : List.lookup ql SIMPLE_QUERY_PATTERNS = none)
    (h3 : List.lookup nq SIMPLE_QUERY_PATTERNS = none)
    (h4 : simple_parse_query nq = some r) :
    parse_query_ai_tiers c uq ql nq o =
      { result := r, cache := cache_query c uq r (some normalize_query),
        aiInvoked := false } := by
  unfold parse_query_ai_tiers
  rw [hg, h2, h3, h4]

/-- C9: the heuristic parser's outcome trichotomy, plus orchestrator caching.
For every query (with `ql` its lowered-stripped form, `orig` its stripped
form): (a) if no filter dimension was detected — all primary detectors and
the bare-name detector silent — and the query contains a complex marker word,
`simple_parse_query` returns unresolved (`none`, escalating to AI); (b) if
any filter dimension was detected, it returns a FilterSpec with
`query_understood = true`; every produced FilterSpec is either understood or
a warnings-only not-understood spec with no filter fields; (c) if only
warnings were produced — no filter, no complex marker — it returns a
FilterSpec with `query_understood = false` carrying the collected warnings;
and (d) the orchestrator caches any heuristic-tier result (the warnings-only
ones included) under the stripped query key. -/
theorem simple_parse_query_trichotomy_and_caching (q : String) :
    ((detect_gender (pyStrip (pyLower q))).1 = none →
     (detect_name_search (pyStrip (pyLower q)) (detect_gender (pyStrip (pyLower q))).1
       (detect_profile_pic_filter (pyStrip (pyLower q)))).1 = none →
     detect_name_length_parity (pyStrip (pyLower q)) = none →
     detect_profile_pic_filter (pyStrip (pyLower q)) = none →
     (detect_sorting (pyStrip (pyLower q))).1 = none →
     detect_bare_name (pyStrip (pyLower q)) (pyStrip q) = none →
     is_complex_query (pyStrip (pyLower q)) = true →
     simple_parse_query q = none) ∧
    (((detect_gender (pyStrip (pyLower q))).1.isSome ||
      (detect_name_search (pyStrip (pyLower q)) (detect_gender (pyStrip (pyLower q))).1
        (detect_profile_pic_filter (pyStrip (pyLower q)))).1.isSome ||
      (detect_name_length_parity (pyStrip (pyLower q))).isSome ||
      (detect_profile_pic_filter (pyStrip (pyLower q))).isSome ||
      (detect_sorting (pyStrip (pyLower q))).1.isSome ||
      (detect_bare_name (pyStrip (pyLower q)) (pyStrip q)).isSome) = true →
     ∃ f, simple_parse_query q = some f ∧ f.query_understood = true) ∧
    (∀ f, simple_parse_query q = some f →
      f.query_understood = true ∨
        (f.query_understood = false ∧ f.parse_warnings ≠ [] ∧ f.gender = none ∧
         f.name_substr = none ∧ f.name_length_parity = none ∧ f.has_profile_pic = none ∧
         f.sort_by = none)) ∧
    (detect_gender (pyStrip (pyLower q)) = (none, none) →
     (detect_name_search (pyStrip (pyLower q)) (detect_gender (pyStrip (pyLower q))).1
       (detect_profile_pic_filter (pyStrip (pyLower q)))).1 = none →
     detect_name_length_parity (pyStrip (pyLower q)) = none →
     detect_profile_pic_filter (pyStrip (pyLower q)) = none →
     (detect_sorting (pyStrip (pyLower q))).1 = none →
     detect_bare_name (pyStrip (pyLower q)) (pyStrip q) = none →
     is_complex_query (pyStrip (pyLower q)) = false →
     detect_unsupported_patterns (pyStrip (pyLower q)) ≠ [] →
     simple_parse_query q =
       some { query_understood := false,
              parse_warnings := detect_unsupported_patterns (pyStrip (pyLower q)) }) ∧
    (∀ (c : Cache) (o : Option AIDict) (r : UserQueryFilters),
      get_cached_query c (pyStrip q) (some normalize_query) = none →
      SIMPLE_QUERY_PATTERNS.lookup (pyLower (pyStrip q)) = none →
      SIMPLE_QUERY_PATTERNS.lookup (normalize_query (pyStrip q)) = none →
      simple_parse_query (normalize_query (pyStrip q)) = some r →
      parse_query_ai c q o =
        { result := r, cache := cache_query c (pyStrip q) r (some normalize_query),
          aiInvoked := false } ∧
      cacheLookup (parse_query_ai c q o).cache (pyStrip q) = some r) := by
  refine ⟨?_, ?_, ?_, ?_, ?_⟩
  · intro hg hn hp hpic hs hb hc
    exact combine_detections_none _ _ _ _ _ _ _ _ hg hn hp hpic hs hb hc
  · intro h
    exact combine_detections_understood _ _ _ _ _ _ _ _ (by
      simpa [Bool.or_assoc] using h)
  · intro f h
    exact combine_detections_shape _ _ _ _ _ _ _ _ f h
  · intro hg hn hp hpic hs hb hc hw
    exact combine_detections_warnings_only _ _ _ _ _ _ _ _ hg hn hp hpic hs hb hc hw
  · intro c o r hg h2 h3 h4
    constructor
    · exact parse_query_ai_tiers_simple_hit c (pyStrip q) (pyLower (pyStrip q))
        (normalize_query (pyStrip q)) o r hg h2 h3 h4
    · show cacheLookup (parse_query_ai_tiers c (pyStrip q) (pyLower (pyStrip q))
        (normalize_query (pyStrip q)) o).cache (pyStrip q) = some r
      rw [parse_query_ai_tiers_simple_hit c (pyStrip q) (pyLower (pyStrip q))
        (normalize_query (pyStrip q)) o r hg h2 h3 h4]
      exact cacheLookup_cache_query c (pyStrip q) r (some normalize_query)

/-- Witness for C9 at concrete queries: (a) "users whose age" escalates,
(b) "Adam" is understood, (c)/(d) "not blue green red yellow" yields a cached
warnings-only not-understood spec. -/
theorem simple_parse_query_trichotomy_witness :
    simple_parse_query "users whose age" = none ∧
    (∃ f, simple_parse_query "Adam" = some f ∧ f.query_understood = true) ∧
    simple_parse_query "not blue green red yellow" =
      some { query_understood := false,
             parse_warnings :=
               detect_unsupported_patterns (pyStrip (pyLower "not blue green red yellow")) } ∧
    parse_query_ai cacheEmpty "not blue green red yellow" none =
      { result :=
          { query_understood := false,
            parse_warnings :=
              ["Negation/exclusion queries are not supported - showing matching results instead"] },
        cache := cache_query cacheEmpty "not blue green red yellow"
          { query_understood := false,
            parse_warnings :=
              ["Negation/exclusion queries are not supported - showing matching results instead"] }
          (some normalize_query),
        aiInvoked := false } :=
  ⟨(simple_parse_query_trichotomy_and_caching "users whose age").1
      (by decide) (by decide) (by decide) (by decide) (by decide) (by decide) (by decide),
   (simple_parse_query_trichotomy_and_caching "Adam").2.1 (by decide),
   (simple_parse_query_trichotomy_and_caching "not blue green red yellow").2.2.2.1
      (by decide) (by decide) (by decide) (by decide) (by decide) (by decide) (by decide)
      (by decide),
   ((simple_parse_query_trichotomy_and_caching "not blue green red yellow").2.2.2.2
      cacheEmpty none _ (by decide) (by decide) (by decide) (by decide)).1⟩

/-! ## Claim C10 — starts-with mode implies a single upper-case letter -/

theorem char_ofNat_toNat (m : Nat) (h : m < 55296) : (Char.ofNat m).toNat = m := by
  simp [Char.ofNat, Nat.isValidChar, h, Char.ofNatAux, Char.toNat, UInt32.toNat,
    BitVec.toNat_ofNatLt]

theorem char_isLower_iff (c : Char) : c.isLower = true ↔ 97 ≤ c.toNat ∧ c.toNat ≤ 122 := by
  simp [Char.isLower, Char.toNat, UInt32.le_def, BitVec.le_def, UInt32.toNat]

theorem char_isUpper_iff (c : Char) : c.isUpper = true ↔ 65 ≤ c.toNat ∧ c.toNat ≤ 90 := by
  simp [Char.isUpper, Char.toNat, UInt32.le_def, BitVec.le_def, UInt32.toNat]

/-- ASCII upper-casing an alphabetic character yields an upper-case letter. -/
theorem char_toUpper_isUpper (c : Char) (h : c.isAlpha = true) :
    (Char.toUpper c).isUpper = true := by
  simp only [Char.isAlpha, Bool.or_eq_true] at h
  rw [Char.toUpper]
  rcases h with h | h
  · rw [char_isUpper_iff] at h
    rw [if_neg (by omega)]
    rw [char_isUpper_iff]
    omega
  · rw [char_isLower_iff] at h
    rw [if_pos (by omega)]
    rw [char_isUpper_iff, char_ofNat_toNat _ (by omega)]
    omega

theorem char_toUpper_isAlpha (c : Char) (h : c.isAlpha = true) :
    (Char.toUpper c).isAlpha = true := by
  simp [Char.isAlpha, char_toUpper_isUpper c h]

/-- Upper-casing a single-letter word is the `upper()` image of one
alphabetic character. -/
theorem pyUpper_singleLetter (w : String) (h : isSingleLetter w = true) :
    ∃ c : Char, pyIsAlphaChar c = true ∧ pyUpper w = String.mk (pyUpperChar c) := by
  rw [isSingleLetter, Bool.and_eq_true] at h
  obtain ⟨h1, h2⟩ := h
  have hlen : w.data.length = 1 := of_decide_eq_true h1
  obtain ⟨c, hc⟩ := List.length_eq_one.mp hlen
  rw [pyStrIsAlpha, Bool.and_eq_true, List.all_eq_true] at h2
  have halpha : pyIsAlphaChar c = true :=
    h2.2 c (by rw [hc]; exact List.mem_singleton.mpr rfl)
  exact ⟨c, halpha, by simp [pyUpper, hc]⟩

/-- On an ASCII letter, `upper()` is exactly one upper-case ASCII letter. -/
theorem pyUpperChar_ascii (c : Char) (h : c.isAlpha = true) :
    pyUpperChar c = [Char.toUpper c] ∧ (Char.toUpper c).isUpper = true ∧
      (Char.toUpper c).isAlpha = true := by
  refine ⟨?_, char_toUpper_isUpper c h, char_toUpper_isAlpha c h⟩
  simp only [Char.isAlpha, Bool.or_eq_true] at h
  rcases h with h | h
  · rw [char_isUpper_iff] at h
    rw [pyUpperChar, if_neg (by omega), if_neg (by omega), if_neg (by omega),
      if_neg (by omega), if_neg (by omega)]
    rw [Char.toUpper, if_neg (by omega)]
  · rw [char_isLower_iff] at h
    rw [pyUpperChar, if_pos (by omega)]

/-- Every hit of `_find_letter_after_with` is the upper-casing of a
single-letter word. -/
theorem find_letter_after_with_single (ws : List String) (s : String)
    (h : _find_letter_after_with ws = some s) :
    ∃ w, isSingleLetter w = true ∧ s = pyUpper w := by
  induction ws with
  | nil => simp [_find_letter_after_with] at h
  | cons w rest ih =>
    cases rest with
    | nil => simp [_find_letter_after_with] at h
    | cons n1 rest2 =>
      simp only [_find_letter_after_with] at h
      repeat' split at h
      all_goals first
      | exact ih h
      | (rw [Option.some.injEq] at h
         subst h
         rename_i hsingle
         exact ⟨_, hsingle, rfl⟩)

/-- Every hit of `_find_letter_after_pattern` is the upper-casing of a
single-letter word. -/
theorem find_letter_after_pattern_single (pw ws : List String) (s : String)
    (h : _find_letter_after_pattern pw ws = some s) :
    ∃ w, isSingleLetter w = true ∧ s = pyUpper w := by
  induction ws with
  | nil => simp [_find_letter_after_pattern] at h
  | cons w rest ih =>
    simp only [_find_letter_after_pattern] at h
    repeat' split at h
    all_goals first
    | exact ih h
    | (rw [Option.some.injEq] at h
       subst h
       rename_i hsingle
       exact ⟨_, hsingle, rfl⟩)
    | exact absurd h (by simp)

/-- Pattern 1 only hits, in starts-with mode, with the upper-casing of a
single-letter word. -/
theorem detect_show_x_names_shape (ws : List String) (r : String × Bool)
    (h : _detect_show_x_names ws = some r) :
    r.2 = true ∧ ∃ w, isSingleLetter w = true ∧ r.1 = pyUpper w := by
  simp only [_detect_show_x_names] at h
  repeat' split at h
  all_goals first
  | (rw [Option.some.injEq] at h
     subst h
     rename_i hsingle
     exact ⟨rfl, _, hsingle, rfl⟩)
  | exact absurd h (by simp)

/-- Pattern 2 only hits, in starts-with mode, with the upper-casing of a
single-letter word. -/
theorem detect_starts_with_pattern_aux_shape (ql : String) (ws pats : List String)
    (r : String × Bool) (h : _detect_starts_with_pattern_aux ql ws pats = some r) :
    r.2 = true ∧ ∃ w, isSingleLetter w = true ∧ r.1 = pyUpper w := by
  induction pats with
  | nil => simp [_detect_starts_with_pattern_aux] at h
  | cons pat rest ih =>
    simp only [_detect_starts_with_pattern_aux] at h
    repeat' split at h
    all_goals first
    | exact ih h
    | (rw [Option.some.injEq] at h
       subst h
       rename_i letter hl
       exact ⟨rfl, find_letter_after_with_single ws letter hl⟩)
    | (rw [Option.some.injEq] at h
       subst h
       rename_i letter hl
       exact ⟨rfl, find_letter_after_pattern_single _ ws letter hl⟩)
    | exact absurd h (by simp)

/-- Pattern 3 never sets starts-with mode. -/
theorem detect_letter_in_name_flag (ws : List String) (r : String × Bool)
    (h : _detect_letter_in_name ws = some r) : r.2 = false := by
  simp only [_detect_letter_in_name] at h
  repeat' split at h
  all_goals first
  | (rw [Option.some.injEq] at h
     subst h
     rfl)
  | exact absurd h (by simp)

/-- Pattern 4 never sets starts-with mode. -/
theorem detect_containing_pattern_flag (ws : List String) (r : String × Bool)
    (h : _detect_containing_pattern ws = some r) : r.2 = false := by
  simp only [_detect_containing_pattern] at h
  repeat' split at h
  all_goals first
  | (rw [Option.some.injEq] at h
     subst h
     rfl)
  | exact absurd h (by simp)

/-- Pattern 5 never sets starts-with mode. -/
theorem detect_name_like_pattern_flag (ws : List String) (r : String × Bool)
    (h : _detect_name_like_pattern ws = some r) : r.2 = false := by
  simp only [_detect_name_like_pattern] at h
  repeat' split at h
  all_goals first
  | (rw [Option.some.injEq] at h
     subst h
     rfl)
  | exact absurd h (by simp)

/-- Pattern 6 never sets starts-with mode. -/
theorem detect_named_called_pattern_flag (ql : String) (r : String × Bool)
    (h : _detect_named_called_pattern ql = some r) : r.2 = false := by
  simp only [_detect_named_called_pattern] at h
  repeat' split at h
  all_goals first
  | (rw [Option.some.injEq] at h
     subst h
     rfl)
  | exact absurd h (by simp)

/-- Pattern 7 never sets starts-with mode. -/
theorem detect_show_name_filter_flag (ws : List String) (r : String × Bool)
    (h : _detect_show_name_filter ws = some r) : r.2 = false := by
  simp only [_detect_show_name_filter] at h
  repeat' split at h
  all_goals first
  | (rw [Option.some.injEq] at h
     subst h
     rfl)
  | exact absurd h (by simp)

/-- Pattern 8 never sets starts-with mode. -/
theorem detect_name_users_pattern_flag (ws : List String) (r : String × Bool)
    (h : _detect_name_users_pattern ws = some r) : r.2 = false := by
  simp only [_detect_name_users_pattern] at h
  repeat' split at h
  all_goals first
  | (rw [Option.some.injEq] at h
     subst h
     rfl)
  | exact absurd h (by simp)

/-- Pattern 9 never sets starts-with mode. -/
theorem detect_name_filter_pattern_flag (ws : List String) (g : Option String)
    (r : String × Bool) (h : _detect_name_filter_pattern ws g = some r) : r.2 = false := by
  simp only [_detect_name_filter_pattern] at h
  repeat' split at h
  all_goals first
  | (rw [Option.some.injEq] at h
     subst h
     rfl)
  | exact absurd h (by simp)

/-- Pattern 10 never sets starts-with mode. -/
theorem detect_with_name_pattern_flag (ql : String) (g : Option String) (p : Option Bool)
    (r : String × Bool) (h : _detect_with_name_pattern ql g p = some r) : r.2 = false := by
  simp only [_detect_with_name_pattern] at h
  repeat' split at h
  all_goals first
  | (rw [Option.some.injEq] at h
     subst h
     rfl)
  | exact absurd h (by simp)

/-- C10 counterexample: starts-with mode does NOT always come with a
single-character `name_substr`.  U+00DF eszett is a single alphabetic
character whose `upper()` image is the two-character "SS", so the query
"users starting with ß" hits the starts-with matcher and yields
`name_substr = "SS"` with `starts_with_mode = true`. -/
theorem detect_name_search_eszett_counterexample :
    detect_name_search ("users starting with " ++ String.mk [eszett]) none none =
      (some "SS", true) ∧ ("SS" : String).length = 2 := by
  decide

/-- C10 (amended): whenever `detect_name_search` reports
`starts_with_mode = true`, the accompanying `name_substr` is the `upper()`
image of one single alphabetic character — only the "X names" matcher
(pattern 1) and the "starts with X" matcher (pattern 2) can set starts-with
mode, and both only ever upper-case a single-letter word.  When that
character is an ASCII letter the image is exactly one upper-case alphabetic
character (the original claim), but not in general (eszett upper-cases to
"SS").  Every other matcher (patterns 3–10) returns
`starts_with_mode = false`. -/
theorem detect_name_search_starts_with_upper_image :
    (∀ (ql : String) (g : Option String) (p : Option Bool),
      (detect_name_search ql g p).2 = true →
      ∃ c : Char, pyIsAlphaChar c = true ∧
        (detect_name_search ql g p).1 = some (String.mk (pyUpperChar c))) ∧
    (∀ c : Char, c.isAlpha = true →
      pyUpperChar c = [Char.toUpper c] ∧ (Char.toUpper c).isUpper = true ∧
        (Char.toUpper c).isAlpha = true) ∧
    (∀ ws r, _detect_letter_in_name ws = some r → r.2 = false) ∧
    (∀ ws r, _detect_containing_pattern ws = some r → r.2 = false) ∧
    (∀ ws r, _detect_name_like_pattern ws = some r → r.2 = false) ∧
    (∀ ql r, _detect_named_called_pattern ql = some r → r.2 = false) ∧
    (∀ ws r, _detect_show_name_filter ws = some r → r.2 = false) ∧
    (∀ ws r, _detect_name_users_pattern ws = some r → r.2 = false) ∧
    (∀ ws g r, _detect_name_filter_pattern ws g = some r → r.2 = false) ∧
    (∀ ql g p r, _detect_with_name_pattern ql g p = some r → r.2 = false) := by
  refine ⟨?_, pyUpperChar_ascii, detect_letter_in_name_flag, detect_containing_pattern_flag,
    detect_name_like_pattern_flag, detect_named_called_pattern_flag,
    detect_show_name_filter_flag, detect_name_users_pattern_flag,
    detect_name_filter_pattern_flag, detect_with_name_pattern_flag⟩
  intro ql g p
  simp only [detect_name_search]
  cases h1 : _detect_show_x_names (pySplitWs ql) with
  | some r =>
    intro _
    obtain ⟨_, w, hsingle, hw⟩ := detect_show_x_names_shape (pySplitWs ql) r h1
    obtain ⟨c, hca, hpc⟩ := pyUpper_singleLetter w hsingle
    exact ⟨c, hca, by simp [hw, hpc]⟩
  | none =>
  cases h2 : _detect_starts_with_pattern ql (pySplitWs ql) with
  | some r =>
    intro _
    obtain ⟨_, w, hsingle, hw⟩ :=
      detect_starts_with_pattern_aux_shape ql (pySplitWs ql) _STARTS_WITH_PATTERNS r h2
    obtain ⟨c, hca, hpc⟩ := pyUpper_singleLetter w hsingle
    exact ⟨c, hca, by simp [hw, hpc]⟩
  | none =>
  cases h3 : _detect_letter_in_name (pySplitWs ql) with
  | some r =>
    intro htrue
    exact absurd htrue (by simp [detect_letter_in_name_flag _ r h3])
  | none =>
  cases h4 : _detect_containing_pattern (pySplitWs ql) with
  | some r =>
    intro htrue
    exact absurd htrue (by simp [detect_containing_pattern_flag _ r h4])
  | none =>
  cases h5 : _detect_name_like_pattern (pySplitWs ql) with
  | some r =>
    intro htrue
    exact absurd htrue (by simp [detect_name_like_pattern_flag _ r h5])
  | none =>
  cases h6 : _detect_named_called_pattern ql with
  | some r =>
    intro htrue
    exact absurd htrue (by simp [detect_named_called_pattern_flag _ r h6])
  | none =>
  cases h7 : _detect_show_name_filter (pySplitWs ql) with
  | some r =>
    intro htrue
    exact absurd htrue (by simp [detect_show_name_filter_flag _ r h7])
  | none =>
  cases h8 : _detect_name_users_pattern (pySplitWs ql) with
  | some r =>
    intro htrue
    exact absurd htrue (by simp [detect_name_users_pattern_flag _ r h8])
  | none =>
  cases h9 : _detect_name_filter_pattern (pySplitWs ql) g with
  | some r =>
    intro htrue
    exact absurd htrue (by simp [detect_name_filter_pattern_flag _ g r h9])
  | none =>
  cases h10 : _detect_with_name_pattern ql g p with
  | some r =>
    intro htrue
    exact absurd htrue (by simp [detect_with_name_pattern_flag ql g p r h10])
  | none =>
    intro htrue
    exact absurd htrue (by simp)

/-- Witness for C10's amended theorem at the concrete starts-with query
"users starting with j" and at the ASCII letter j. -/
theorem detect_name_search_starts_with_upper_image_witness :
    (∃ c : Char, pyIsAlphaChar c = true ∧
      (detect_name_search "users starting with j" none none).1 =
        some (String.mk (pyUpperChar c))) ∧
    pyUpperChar 'j' = [Char.toUpper 'j'] :=
  ⟨detect_name_search_starts_with_upper_image.1 "users starting with j" none none (by decide),
   (detect_name_search_starts_with_upper_image.2.1 'j' (by decide)).1⟩
